import Mathlib

/-!
Verification of the spaced-repetition scheduler in
src/Spaced_rep_project/spaced_repetition.py.

Modelling conventions:
* Python floats are modelled as real numbers; `math.exp` is `Real.exp` and
  the float `**` operator is `Real.rpow`.
* Python `round` (one-argument form) rounds half to even; it is modelled
  faithfully by `python_round` below, not by Mathlib `round` (which rounds
  half up).
* Calendar dates are modelled as integer day numbers under the fixed
  UTC-minus-4-hour local-day convention used throughout the source
  (`datetime.now(timezone.utc) + timedelta(hours=-4)`); comparison of ISO
  date strings coincides with comparison of day numbers, and
  `timedelta(days=n)` is addition of `n`.
* The global `questions` dict is modelled as an association list
  `List (String × Details)` (Python dicts preserve insertion order).
* Python exceptions are modelled with `Except String`: a raised exception
  that escapes the modelled function is an `Except.error`.
-/

namespace SpacedRepetition

/-- Parameter vector w from FSRS.__init__ (the default tuple). -/
noncomputable def w : Fin 20 → ℝ :=
  ![2.5, 2.6, 2.3, 2.8, 3.0, 0.8, 0.7, 0.5, 0.1, 0.1, 0.1, 1.0, 0.5, 0.5,
    1.0, 0.6, 1.2, 0.5, 0.7, 1.3]

/-- DECAY constant from FSRS.__init__. -/
noncomputable def DECAY : ℝ := -0.4

/-- FACTOR constant from FSRS.__init__: 0.9 ** (1 / DECAY) - 1. -/
noncomputable def FACTOR : ℝ := (0.9 : ℝ) ^ ((1 : ℝ) / DECAY) - 1

/-- interval_cap = 365 (also FSRS.maximum_interval). -/
def interval_cap : ℤ := 365

/-- Python one-argument round: round half to even (bankers rounding).
For a tie (fractional part exactly one half) it picks the even neighbour;
otherwise it agrees with rounding to the nearest integer. -/
noncomputable def python_round (x : ℝ) : ℤ :=
  if Int.fract x = 1 / 2 then (if Even ⌊x⌋ then ⌊x⌋ else ⌊x⌋ + 1)
  else round x

/-- FSRS.forgetting_curve. -/
noncomputable def forgetting_curve (elapsed_days stability : ℝ) : ℝ :=
  (1 + FACTOR * elapsed_days / stability) ^ DECAY

/-- FSRS.next_interval: stability / FACTOR * (retention_factor ** (1 / DECAY) - 1),
rounded and clamped into [1, maximum_interval]. -/
noncomputable def next_interval (stability retention_factor : ℝ) : ℤ :=
  min (max (python_round (stability / FACTOR *
    (retention_factor ^ ((1 : ℝ) / DECAY) - 1))) 1) interval_cap

/-- FSRS.mean_reversion. -/
noncomputable def mean_reversion (init current : ℝ) : ℝ :=
  w 7 * init + (1 - w 7) * current

/-- FSRS.next_difficulty (rating is a Python int). -/
noncomputable def next_difficulty (difficulty : ℝ) (rating : ℤ) : ℝ :=
  let next_d := difficulty - w 6 * ((rating : ℝ) - 3)
  min (max (mean_reversion 5.0 next_d) 1) 10

/-- FSRS.next_recall_stability. -/
noncomputable def next_recall_stability (difficulty stability retrievability : ℝ)
    (rating : ℤ) : ℝ :=
  stability * (1 + Real.exp (w 8) * (11 - difficulty) *
    stability ^ (-(w 9)) * (Real.exp ((1 - retrievability) * w 10) - 1)) *
    (if rating = 2 then w 15 else 1)

/-! Basic facts about `python_round`. -/

theorem round_of_fract_lt {x : ℝ} (h : Int.fract x < 1 / 2) : round x = ⌊x⌋ := by
  rw [round_eq]
  have hx : x + 1 / 2 = (⌊x⌋ : ℝ) + (Int.fract x + 1 / 2) := by
    rw [Int.fract]; ring
  rw [hx, Int.floor_int_add]
  have h0 : (0 : ℝ) ≤ Int.fract x + 1 / 2 := by
    have := Int.fract_nonneg x; linarith
  have h1 : Int.fract x + 1 / 2 < 1 := by linarith
  have : ⌊Int.fract x + 1 / 2⌋ = 0 := Int.floor_eq_zero_iff.mpr ⟨h0, h1⟩
  omega

theorem round_of_fract_ge {x : ℝ} (h : 1 / 2 ≤ Int.fract x) :
    round x = ⌊x⌋ + 1 := by
  rw [round_eq]
  have hx : x + 1 / 2 = (⌊x⌋ : ℝ) + (Int.fract x + 1 / 2) := by
    rw [Int.fract]; ring
  rw [hx, Int.floor_int_add]
  have h1 : (1 : ℝ) ≤ Int.fract x + 1 / 2 := by linarith
  have h2 : Int.fract x + 1 / 2 < 1 + 1 := by
    have := Int.fract_lt_one x; linarith
  have : ⌊Int.fract x + 1 / 2⌋ = 1 := by
    rw [Int.floor_eq_iff]
    constructor
    · push_cast; linarith
    · push_cast; linarith
  omega

theorem floor_le_python_round (x : ℝ) : ⌊x⌋ ≤ python_round x := by
  unfold python_round
  split
  · split <;> omega
  · rcases lt_or_le (Int.fract x) (1 / 2) with hlt | hge
    · rw [round_of_fract_lt hlt]
    · rw [round_of_fract_ge hge]; omega

theorem python_round_le_floor_add_one (x : ℝ) : python_round x ≤ ⌊x⌋ + 1 := by
  unfold python_round
  split
  · split <;> omega
  · rcases lt_or_le (Int.fract x) (1 / 2) with hlt | hge
    · rw [round_of_fract_lt hlt]; omega
    · rw [round_of_fract_ge hge]

theorem python_round_mono : Monotone python_round := by
  intro x y hxy
  rcases lt_or_le ⌊x⌋ ⌊y⌋ with hf | hf
  · have h1 := python_round_le_floor_add_one x
    have h2 := floor_le_python_round y
    omega
  · have hfe : ⌊x⌋ = ⌊y⌋ := le_antisymm (Int.floor_le_floor hxy) hf
    have hfr : Int.fract x ≤ Int.fract y := by
      simp only [Int.fract, hfe]
      linarith
    by_cases h1 : Int.fract x = 1 / 2
    · by_cases he : Even ⌊x⌋
      · rw [python_round, if_pos h1, if_pos he]
        have := floor_le_python_round y
        omega
      · rw [python_round, if_pos h1, if_neg he]
        by_cases h2 : Int.fract y = 1 / 2
        · rw [python_round, if_pos h2, if_neg (hfe ▸ he)]
          omega
        · have hy : 1 / 2 < Int.fract y :=
            lt_of_le_of_ne (h1 ▸ hfr) (Ne.symm h2)
          rw [python_round, if_neg h2, round_of_fract_ge (le_of_lt hy)]
          omega
    · rcases lt_or_le (Int.fract x) (1 / 2) with hlt | hge
      · rw [python_round, if_neg h1, round_of_fract_lt hlt]
        have := floor_le_python_round y
        omega
      · have hx1 : 1 / 2 < Int.fract x := lt_of_le_of_ne hge (Ne.symm h1)
        have hy : 1 / 2 < Int.fract y := lt_of_lt_of_le hx1 hfr
        rw [python_round, if_neg h1, round_of_fract_ge hge,
          python_round, if_neg (ne_of_gt hy), round_of_fract_ge (le_of_lt hy)]
        omega

/-! ### Data model -/

/-- Process-wide configuration parsed from the config file (lines 9-18 of the
source). COMPANY_PREP_MODE is parsed to a boolean and
COMPANY_PREP_RETENTION_FACTOR to a float. -/
structure Config where
  company_prep_mode : Bool
  company_prep_target : String
  company_prep_retention_factor : ℝ
  default_retention : ℝ

/-- One entry of the ratings list: a dict with keys date and rating. -/
structure RatingRecord where
  date : ℤ
  rating : ℤ

/-- One entry of the solving_time list: a dict with keys date and time_taken. -/
structure SolveRecord where
  date : ℤ
  time_taken : ℝ

/-- The per-question record stored in the questions dict (add_question,
lines 129-144). Dates are integer day numbers (see the file header). -/
structure Details where
  link : String
  problem_type : String
  company_tags : List String
  last_reviewed : ℤ
  next_review : ℤ
  interval : ℤ
  stability : ℝ
  difficulty : ℝ
  retention_factor : ℝ
  current_retention_rate : Option ℝ
  feynman : String
  solving_time : List SolveRecord
  average_time : Option ℝ
  ratings : List RatingRecord

/-- calculate_average_time (lines 149-152). -/
noncomputable def calculate_average_time (solving_times : List SolveRecord) :
    Option ℝ :=
  if solving_times.isEmpty then none
  else some ((solving_times.map (fun t => t.time_taken)).sum /
    (solving_times.length : ℝ))

/-- The guard on lines 217-218 of update_question_metrics: COMPANY_PREP_MODE
is set and COMPANY_PREP_TARGET is not among the company tags of the item.
When this condition holds the source executes
`retention_factor *= config.COMPANY_PREP_RETENTION_FACTOR`, an attribute
access on the dict `config`, which raises AttributeError (the dict was
indexed with brackets everywhere else); so reaching the success path of
update_question_metrics implies this condition is false and the retention
factor is never actually scaled. -/
def prep_scaling_cond (cfg : Config) (d : Details) : Bool :=
  cfg.company_prep_mode && !(d.company_tags.contains cfg.company_prep_target)

/-- The fields written by the success path of update_question_metrics
(lines 211-237 with the guard false): retrievability from the pre-update
interval and stability, new stability and difficulty from the model, the
rating == 1 override, the cap, and next_review = today + new_interval. -/
noncomputable def updatedDetails (d : Details) (rating : ℤ) (today : ℤ) :
    Details :=
  let last_interval := d.interval
  let last_stability := d.stability
  let last_difficulty := d.difficulty
  let retention_factor := d.retention_factor
  let retrievability := forgetting_curve (last_interval : ℝ) last_stability
  let new_stability :=
    next_recall_stability last_difficulty last_stability retrievability rating
  let new_difficulty := next_difficulty last_difficulty rating
  let base_interval := next_interval new_stability retention_factor
  let base_interval := if rating = 1 then 1 else base_interval
  let new_stability :=
    if rating = 1 then max (new_stability * 0.6) 0.1 else new_stability
  let new_interval := min base_interval interval_cap
  let next_review := today + new_interval
  { d with
    interval := new_interval
    stability := new_stability
    difficulty := new_difficulty
    next_review := next_review }

/-- update_question_metrics (lines 211-237). The prep-scaling branch raises
AttributeError before anything else in the function has an effect, so the
function is the guard followed by the pure success path. -/
noncomputable def update_question_metrics (cfg : Config) (d : Details)
    (rating : ℤ) (today : ℤ) : Except String Details :=
  if prep_scaling_cond cfg d then
    Except.error "AttributeError: dict object has no attribute COMPANY_PREP_RETENTION_FACTOR"
  else
    Except.ok (updatedDetails d rating today)

/-- The success-weighted running retention average of line 192: ratings of
4 or 5 count as 5, lower ratings count their raw value, falsy (zero)
ratings are skipped by the comprehension filter, and the total is divided
by 5 times the number of ALL recorded ratings. -/
noncomputable def current_retention_rate_of (ratings : List RatingRecord) : ℝ :=
  (((ratings.filter (fun r => r.rating != 0)).map
    (fun r => if 4 ≤ r.rating then (5 : ℝ) else (r.rating : ℝ))).sum) /
    ((ratings.length : ℝ) * 5)

/-- Closed form of the item state produced by a completed (non-skipped,
non-crashing) run of review_single_question. -/
noncomputable def reviewedDetails (d : Details) (rating : ℤ) (time_taken : ℝ)
    (explanation : String) (today : ℤ) : Details :=
  let d1 := { d with ratings := d.ratings ++ [RatingRecord.mk today rating] }
  let d2 :=
    { d1 with
      current_retention_rate := some (current_retention_rate_of d1.ratings) }
  let d3 := { d2 with solving_time := d2.solving_time ++ [SolveRecord.mk today time_taken] }
  let d4 := { d3 with average_time := calculate_average_time d3.solving_time }
  { updatedDetails d4 rating today with
    feynman := explanation
    last_reviewed := today }

/-- review_single_question (lines 183-209), for a review the user agrees to
start, with the rating, elapsed time and explanation supplied as inputs.
The function appends the rating record, recomputes the retention average,
appends the solving-time record and its new mean, runs
update_question_metrics (which may raise), and finally stores the
explanation and sets last_reviewed to today. On the raising path the
review is not recorded: the process aborts before save_questions runs, so
the partially mutated in-memory dict is never persisted. -/
noncomputable def review_single_question (cfg : Config) (d : Details)
    (rating : ℤ) (time_taken : ℝ) (explanation : String) (today : ℤ) :
    Except String Details :=
  let d1 := { d with ratings := d.ratings ++ [RatingRecord.mk today rating] }
  let d2 :=
    { d1 with
      current_retention_rate := some (current_retention_rate_of d1.ratings) }
  let d3 := { d2 with solving_time := d2.solving_time ++ [SolveRecord.mk today time_taken] }
  let d4 := { d3 with average_time := calculate_average_time d3.solving_time }
  match update_question_metrics cfg d4 rating today with
  | Except.error e => Except.error e
  | Except.ok d5 =>
      Except.ok { d5 with feynman := explanation, last_reviewed := today }

theorem review_single_question_eq (cfg : Config) (d : Details) (rating : ℤ)
    (time_taken : ℝ) (explanation : String) (today : ℤ)
    (h : prep_scaling_cond cfg d = false) :
    review_single_question cfg d rating time_taken explanation today =
      Except.ok (reviewedDetails d rating time_taken explanation today) := by
  have h4 : ¬(cfg.company_prep_mode = true ∧
      cfg.company_prep_target ∉ d.company_tags) := by
    simpa [prep_scaling_cond] using h
  simp [review_single_question, update_question_metrics, prep_scaling_cond,
    reviewedDetails, h4]

/-! ### Review selection (review_questions, lines 154-165) -/

/-- The difficulty_order dict (lines 53-71): category name to review
priority ordinal (lower ordinal is reviewed first). -/
def difficulty_order : List (String × ℕ) :=
  [("Arrays", 1), ("Hashing", 2), ("2P", 3), ("Stack", 4), ("Sorting", 5),
   ("Binary Search", 6), ("Sliding Window", 7), ("Linked List", 8),
   ("Greedy", 9), ("Heap", 10), ("Intervals", 11), ("Trees", 12),
   ("Math", 13), ("Graphs", 14), ("Backtracking", 15), ("Tries", 16),
   ("DP", 17)]

/-- Sort key of the sorted call on line 164:
difficulty_order[details problem_type]. An unknown problem type raises
KeyError in the source; add_question only ever stores known types, and for
those the default 18 is never reached. -/
def sortKey (q : String × Details) : ℕ :=
  (difficulty_order.lookup q.2.problem_type).getD 18

/-- The company part of the filter on lines 158-162: company is None, or
company occurs in the company_tags list of the item. -/
def companyOk (company : Option String) (d : Details) : Bool :=
  match company with
  | none => true
  | some c => d.company_tags.contains c

/-- The due part of the filter on line 161: next_review on or before today,
or the item was already reviewed today (so it is re-listed as done). -/
def isDue (today : ℤ) (d : Details) : Bool :=
  decide (d.next_review ≤ today) || decide (d.last_reviewed = today)

/-- Lines 158-164 of review_questions: filter the questions dict (an
insertion-ordered association list) by company and dueness, then sort by
category priority ordinal. Python sorted is a stable sort, modelled by
List.mergeSort. -/
def review_questions_listing (company : Option String) (today : ℤ)
    (questions : List (String × Details)) : List (String × Details) :=
  (questions.filter
    (fun q => companyOk company q.2 && isDue today q.2)).mergeSort
    (fun a b => decide (sortKey a ≤ sortKey b))

/-! ### Loading (load_questions, lines 32-43) -/

/-- Shallow model of a value parsed from the JSON data file, sufficient to
express the truthiness test on line 38 (if not questions). The empty dict
is PyJson.obj []. -/
inductive PyJson where
  | null
  | bool (b : Bool)
  | num (q : ℚ)
  | str (s : String)
  | arr (elems : List PyJson)
  | obj (fields : List (String × PyJson))

/-- Python truthiness of a parsed JSON value: None, False, zero, and the
empty string, list and dict are falsy. -/
def PyJson.truthy : PyJson → Bool
  | .null => false
  | .bool b => b
  | .num q => decide (q ≠ 0)
  | .str s => decide (s ≠ "")
  | .arr elems => !elems.isEmpty
  | .obj fields => !fields.isEmpty

/-- Modelled outcome of running json.load on the data file opened in text
mode: either a parsed value, or a raised json.JSONDecodeError when the
decoded text is not valid JSON, or a raised UnicodeDecodeError when the
file bytes are not valid for the text encoding (UTF-8) - the read inside
json.load raises it before any JSON parsing happens. -/
inductive LoadOutcome where
  | parsed (v : PyJson)
  | jsonDecodeError
  | unicodeDecodeError

/-- load_questions (lines 32-43). The input is none when the data file does
not exist, otherwise the outcome of json.load on it. The only except
clause catches json.JSONDecodeError; a UnicodeDecodeError propagates out
of the function. A falsy parsed value is replaced by the empty dict. -/
def load_questions (file : Option LoadOutcome) : Except String PyJson :=
  match file with
  | none => Except.ok (PyJson.obj [])
  | some (LoadOutcome.parsed v) =>
      Except.ok (if v.truthy then v else PyJson.obj [])
  | some LoadOutcome.jsonDecodeError => Except.ok (PyJson.obj [])
  | some LoadOutcome.unicodeDecodeError => Except.error "UnicodeDecodeError"

/-! ### Concrete instances used to instantiate claims -/

/-- A configuration with company prep mode off. -/
noncomputable def cfgOff : Config :=
  { company_prep_mode := false
    company_prep_target := ""
    company_prep_retention_factor := 1.2
    default_retention := 0.8 }

/-- A configuration with company prep mode on, targeting Google. -/
noncomputable def cfgPrep : Config :=
  { company_prep_mode := true
    company_prep_target := "Google"
    company_prep_retention_factor := 1.2
    default_retention := 0.8 }

/-- A concrete freshly added item (the state produced by add_question with
retention 0.8), carrying no company tags. -/
noncomputable def exampleDetails : Details :=
  { link := "https://leetcode.com/problems/two-sum"
    problem_type := "Arrays"
    company_tags := []
    last_reviewed := 0
    next_review := 1
    interval := 1
    stability := 2.5
    difficulty := 5.0
    retention_factor := 0.8
    current_retention_rate := none
    feynman := ""
    solving_time := []
    average_time := none
    ratings := [] }

theorem review_single_question_error (cfg : Config) (d : Details) (rating : ℤ)
    (time_taken : ℝ) (explanation : String) (today : ℤ)
    (h : prep_scaling_cond cfg d = true) :
    review_single_question cfg d rating time_taken explanation today =
      Except.error
        "AttributeError: dict object has no attribute COMPANY_PREP_RETENTION_FACTOR" := by
  have h4 : cfg.company_prep_mode = true ∧
      cfg.company_prep_target ∉ d.company_tags := by
    simpa [prep_scaling_cond] using h
  simp [review_single_question, update_question_metrics, prep_scaling_cond,
    h4.1, h4.2]

/-! ### Claims -/

/-- C1: the claimed company-prep retention scaling never takes place. With
COMPANY_PREP_MODE true, target Google, and an item whose company_tags do
not include Google, recording a review (rating 3, on day 0) does not pass
retention_factor times COMPANY_PREP_RETENTION_FACTOR to next_interval:
line 218 reads config.COMPANY_PREP_RETENTION_FACTOR, an attribute access
on the dict config, so update_question_metrics raises AttributeError and
the review aborts. Line 17 shows the intended spelling
config[COMPANY_PREP_RETENTION_FACTOR], so the claim matches the intent and
the code has a slip. -/
theorem claim_C1_prep_scaling_raises :
    update_question_metrics cfgPrep exampleDetails 3 0 =
      Except.error
        "AttributeError: dict object has no attribute COMPANY_PREP_RETENTION_FACTOR" := by
  simp [update_question_metrics, prep_scaling_cond, cfgPrep, exampleDetails]

/-- C4: for positive stability and a retention target in (0,1),
next_interval returns an integer in [1, 365]; the final
min(max(round(x), 1), 365) clamp guarantees both bounds. -/
theorem claim_C4_interval_range (s r : ℝ) (hs : 0 < s) (hr0 : 0 < r)
    (hr1 : r < 1) : 1 ≤ next_interval s r ∧ next_interval s r ≤ 365 := by
  unfold next_interval
  constructor
  · exact le_min (le_max_right _ _) (by norm_num [interval_cap])
  · simpa [interval_cap] using min_le_right
      (max (python_round (s / FACTOR * (r ^ ((1 : ℝ) / DECAY) - 1))) 1)
      interval_cap

theorem claim_C4_witness :
    1 ≤ next_interval 2.5 0.9 ∧ next_interval 2.5 0.9 ≤ 365 :=
  claim_C4_interval_range 2.5 0.9 (by norm_num) (by norm_num) (by norm_num)

/-- C6: for difficulty in [1,10] and an integer rating in 1..5,
next_difficulty (shift by w 6 times (rating - 3), mean reversion toward
5.0 by w 7, then clamp) lands in [1,10]; the min/max clamp guarantees it. -/
theorem claim_C6_difficulty_range (difficulty : ℝ) (rating : ℤ)
    (hd1 : 1 ≤ difficulty) (hd2 : difficulty ≤ 10)
    (hr1 : 1 ≤ rating) (hr2 : rating ≤ 5) :
    1 ≤ next_difficulty difficulty rating ∧
      next_difficulty difficulty rating ≤ 10 := by
  unfold next_difficulty
  exact ⟨le_min (le_max_right _ _) (by norm_num), min_le_right _ _⟩

theorem claim_C6_witness :
    1 ≤ next_difficulty 5.0 3 ∧ next_difficulty 5.0 3 ≤ 10 :=
  claim_C6_difficulty_range 5.0 3 (by norm_num) (by norm_num) (by norm_num)
    (by norm_num)

/-- C9 counterexample: loading is not total over file contents. A data file
whose bytes are not valid UTF-8 makes json.load raise UnicodeDecodeError,
which the except clause (json.JSONDecodeError only) does not catch, so
loading raises instead of yielding the empty collection. -/
theorem claim_C9_counterexample :
    load_questions (some LoadOutcome.unicodeDecodeError) =
      Except.error "UnicodeDecodeError" := rfl

/-- C9 amended: for every data file whose read does not raise
UnicodeDecodeError, loading never raises, and a file whose text fails to
parse as JSON yields the empty collection. -/
theorem claim_C9_amended (file : Option LoadOutcome)
    (h : file ≠ some LoadOutcome.unicodeDecodeError) :
    (file = some LoadOutcome.jsonDecodeError →
      load_questions file = Except.ok (PyJson.obj [])) ∧
    ∀ e, load_questions file ≠ Except.error e := by
  constructor
  · intro hf
    subst hf
    rfl
  · intro e
    match file with
    | none => simp [load_questions]
    | some (LoadOutcome.parsed v) => simp [load_questions]
    | some LoadOutcome.jsonDecodeError => simp [load_questions]
    | some LoadOutcome.unicodeDecodeError => exact absurd rfl h

theorem claim_C9_witness :
    load_questions (some LoadOutcome.jsonDecodeError) =
        Except.ok (PyJson.obj []) ∧
      load_questions (some LoadOutcome.jsonDecodeError) ≠
        Except.error "UnicodeDecodeError" :=
  ⟨(claim_C9_amended (some LoadOutcome.jsonDecodeError) (by simp)).1 rfl,
    (claim_C9_amended (some LoadOutcome.jsonDecodeError) (by simp)).2
      "UnicodeDecodeError"⟩

/-- C2: every successfully recorded review leaves the item with
next_review = last_reviewed + interval. update_question_metrics sets
next_review to today plus the new interval (lines 229-230 and 232-237) and
review_single_question then sets last_reviewed to the same today
(line 207), dates being day numbers under the fixed UTC-minus-4
convention. -/
theorem claim_C2_next_review_invariant (cfg : Config) (d : Details)
    (rating : ℤ) (time_taken : ℝ) (explanation : String) (today : ℤ)
    (d2 : Details)
    (h : review_single_question cfg d rating time_taken explanation today =
      Except.ok d2) :
    d2.next_review = d2.last_reviewed + d2.interval := by
  cases hc : prep_scaling_cond cfg d with
  | true =>
      rw [review_single_question_error cfg d rating time_taken explanation
        today hc] at h
      simp at h
  | false =>
      rw [review_single_question_eq cfg d rating time_taken explanation
        today hc] at h
      injection h with h2
      subst h2
      simp [reviewedDetails, updatedDetails]

theorem claim_C2_witness :
    (reviewedDetails exampleDetails 3 2 "hash map" 5).next_review =
      (reviewedDetails exampleDetails 3 2 "hash map" 5).last_reviewed +
        (reviewedDetails exampleDetails 3 2 "hash map" 5).interval :=
  claim_C2_next_review_invariant cfgOff exampleDetails 3 2 "hash map" 5 _
    (review_single_question_eq cfgOff exampleDetails 3 2 "hash map" 5 rfl)

/-- C3: a review rated 1 that is successfully recorded forces interval = 1
and stability = max(s * 0.6, 0.1), where s is next_recall_stability
applied to the pre-update difficulty, stability and retrievability
(computed from the pre-update interval and stability), independent of the
value next_interval returned (lines 225-227). -/
theorem claim_C3_rating_one_override (cfg : Config) (d : Details)
    (time_taken : ℝ) (explanation : String) (today : ℤ) (d2 : Details)
    (h : review_single_question cfg d 1 time_taken explanation today =
      Except.ok d2) :
    d2.interval = 1 ∧
    d2.stability =
      max (next_recall_stability d.difficulty d.stability
        (forgetting_curve (d.interval : ℝ) d.stability) 1 * 0.6) 0.1 := by
  cases hc : prep_scaling_cond cfg d with
  | true =>
      rw [review_single_question_error cfg d 1 time_taken explanation
        today hc] at h
      simp at h
  | false =>
      rw [review_single_question_eq cfg d 1 time_taken explanation
        today hc] at h
      injection h with h2
      subst h2
      constructor
      · norm_num [reviewedDetails, updatedDetails, interval_cap]
      · norm_num [reviewedDetails, updatedDetails]

theorem claim_C3_witness :
    (reviewedDetails exampleDetails 1 2 "forgot the trick" 5).interval = 1 ∧
    (reviewedDetails exampleDetails 1 2 "forgot the trick" 5).stability =
      max (next_recall_stability exampleDetails.difficulty
        exampleDetails.stability
        (forgetting_curve (exampleDetails.interval : ℝ)
          exampleDetails.stability) 1 * 0.6) 0.1 :=
  claim_C3_rating_one_override cfgOff exampleDetails 2 "forgot the trick" 5 _
    (review_single_question_eq cfgOff exampleDetails 1 2 "forgot the trick" 5
      rfl)

/-- Ratings equal to zero are skipped by the comprehension filter on
line 192 but contribute zero to the sum anyway, so the filtered sum equals
the sum over all rating records. -/
theorem sum_filter_nonzero (l : List RatingRecord) :
    ((l.filter (fun r => r.rating != 0)).map
      (fun r => if 4 ≤ r.rating then (5 : ℝ) else (r.rating : ℝ))).sum =
    (l.map (fun r => if 4 ≤ r.rating then (5 : ℝ) else (r.rating : ℝ))).sum := by
  induction l with
  | nil => simp
  | cons a t ih =>
      by_cases ha : a.rating = 0
      · simp [List.filter_cons, ha, ih]
      · simp [List.filter_cons, ha, ih]

/-- C8: after a successfully recorded review, the stored retention average
equals the sum over ALL rating records of (5 for a rating of at least 4,
the raw rating otherwise) divided by 5 times the record count; the new
(today, rating) record has already been appended. -/
theorem claim_C8_retention_rate (cfg : Config) (d : Details) (rating : ℤ)
    (time_taken : ℝ) (explanation : String) (today : ℤ) (d2 : Details)
    (h : review_single_question cfg d rating time_taken explanation today =
      Except.ok d2) :
    d2.ratings = d.ratings ++ [RatingRecord.mk today rating] ∧
    d2.current_retention_rate = some
      ((d2.ratings.map
        (fun r => if 4 ≤ r.rating then (5 : ℝ) else (r.rating : ℝ))).sum /
        (5 * (d2.ratings.length : ℝ))) := by
  cases hc : prep_scaling_cond cfg d with
  | true =>
      rw [review_single_question_error cfg d rating time_taken explanation
        today hc] at h
      simp at h
  | false =>
      rw [review_single_question_eq cfg d rating time_taken explanation
        today hc] at h
      injection h with h2
      subst h2
      refine ⟨by simp [reviewedDetails, updatedDetails], ?_⟩
      simp only [reviewedDetails, updatedDetails, current_retention_rate_of]
      rw [sum_filter_nonzero]
      ring_nf

theorem claim_C8_witness :
    (reviewedDetails exampleDetails 4 2 "two pointers" 5).ratings =
      exampleDetails.ratings ++ [RatingRecord.mk 5 4] ∧
    (reviewedDetails exampleDetails 4 2 "two pointers" 5).current_retention_rate
      = some
      (((reviewedDetails exampleDetails 4 2 "two pointers" 5).ratings.map
        (fun r => if 4 ≤ r.rating then (5 : ℝ) else (r.rating : ℝ))).sum /
        (5 * ((reviewedDetails exampleDetails 4 2 "two pointers"
          5).ratings.length : ℝ))) :=
  claim_C8_retention_rate cfgOff exampleDetails 4 2 "two pointers" 5 _
    (review_single_question_eq cfgOff exampleDetails 4 2 "two pointers" 5 rfl)

/-! ### Facts about FACTOR and the inverse forgetting curve -/

theorem one_div_DECAY : (1 : ℝ) / DECAY = -2.5 := by
  unfold DECAY
  norm_num

theorem FACTOR_pos : 0 < FACTOR := by
  unfold FACTOR
  rw [one_div_DECAY]
  have h : 1 < (0.9 : ℝ) ^ (-2.5 : ℝ) := by
    rw [Real.one_lt_rpow_iff_of_pos (by norm_num)]
    right
    constructor <;> norm_num
  linarith

theorem one_lt_rpow_inv_DECAY {r : ℝ} (hr0 : 0 < r) (hr1 : r < 1) :
    1 < r ^ ((1 : ℝ) / DECAY) := by
  rw [one_div_DECAY, Real.one_lt_rpow_iff_of_pos hr0]
  right
  constructor
  · exact hr1
  · norm_num

theorem rpow_inv_DECAY_anti {r₁ r₂ : ℝ} (h1 : 0 < r₁) (h12 : r₁ ≤ r₂) :
    r₂ ^ ((1 : ℝ) / DECAY) ≤ r₁ ^ ((1 : ℝ) / DECAY) := by
  rw [one_div_DECAY]
  have hneg : (-2.5 : ℝ) = -(2.5 : ℝ) := by norm_num
  rw [hneg, Real.rpow_neg h1.le, Real.rpow_neg (h1.trans_le h12).le]
  exact inv_le_inv_of_le (Real.rpow_pos_of_pos h1 _)
    (Real.rpow_le_rpow h1.le h12 (by norm_num))

theorem rpow_inv_DECAY_le_one {r : ℝ} (hr : 1 ≤ r) :
    r ^ ((1 : ℝ) / DECAY) ≤ 1 := by
  apply Real.rpow_le_one_of_one_le_of_nonpos hr
  rw [one_div_DECAY]
  norm_num

/-- C5: next_interval is non-decreasing in stability for a fixed retention
target in (0,1), and non-increasing in the retention target for a fixed
positive stability. The raw formula stability / FACTOR *
(target ** (1 / DECAY) - 1) is monotone in stability (its cofactor is
positive on (0,1)) and antitone in the target (the exponent is negative),
and rounding and clamping preserve both. -/
theorem claim_C5_monotonicity :
    (∀ r s₁ s₂ : ℝ, 0 < r → r < 1 → 0 < s₁ → s₁ ≤ s₂ →
      next_interval s₁ r ≤ next_interval s₂ r) ∧
    (∀ s r₁ r₂ : ℝ, 0 < s → 0 < r₁ → r₁ ≤ r₂ → r₂ < 1 →
      next_interval s r₂ ≤ next_interval s r₁) := by
  have hF := FACTOR_pos
  constructor
  · intro r s₁ s₂ hr0 hr1 hs1 hs12
    unfold next_interval
    apply min_le_min _ le_rfl
    apply max_le_max _ le_rfl
    apply python_round_mono
    have hc : 0 ≤ r ^ ((1 : ℝ) / DECAY) - 1 := by
      have := one_lt_rpow_inv_DECAY hr0 hr1
      linarith
    have hdiv : s₁ / FACTOR ≤ s₂ / FACTOR := (div_le_div_right hF).mpr hs12
    exact mul_le_mul_of_nonneg_right hdiv hc
  · intro s r₁ r₂ hs hr1 h12 hr2
    unfold next_interval
    apply min_le_min _ le_rfl
    apply max_le_max _ le_rfl
    apply python_round_mono
    have hsub : r₂ ^ ((1 : ℝ) / DECAY) - 1 ≤ r₁ ^ ((1 : ℝ) / DECAY) - 1 := by
      have := rpow_inv_DECAY_anti hr1 h12
      linarith
    exact mul_le_mul_of_nonneg_left hsub (div_nonneg hs.le hF.le)

theorem claim_C5_witness :
    next_interval 1 0.5 ≤ next_interval 2 0.5 ∧
      next_interval 1 0.9 ≤ next_interval 1 0.5 :=
  ⟨claim_C5_monotonicity.1 0.5 1 2 (by norm_num) (by norm_num) (by norm_num)
      (by norm_num),
    claim_C5_monotonicity.2 1 0.5 0.9 (by norm_num) (by norm_num)
      (by norm_num) (by norm_num)⟩

theorem python_round_nonpos {x : ℝ} (hx : x ≤ 0) : python_round x ≤ 0 := by
  have h0 : python_round (0 : ℝ) = 0 := by
    have hf : Int.fract (0 : ℝ) = 0 := Int.fract_zero
    rw [python_round, if_neg (by rw [hf]; norm_num)]
    exact round_zero
  calc python_round x ≤ python_round 0 := python_round_mono hx
    _ = 0 := h0

/-- C10: next_interval is total and clamped for every positive stability
and every positive retention factor, including factors of 1 or more where
the raw value stability / FACTOR * (factor ** (1 / DECAY) - 1) is
non-positive: the result always lies in [1, 365], a non-positive rounded
raw value is clamped up to exactly 1, and in particular a retention factor
of at least 1 always yields an interval of exactly 1. -/
theorem claim_C10_total_clamped (s r : ℝ) (hs : 0 < s) (hr : 0 < r) :
    (1 ≤ next_interval s r ∧ next_interval s r ≤ 365) ∧
    (python_round (s / FACTOR * (r ^ ((1 : ℝ) / DECAY) - 1)) ≤ 0 →
      next_interval s r = 1) ∧
    (1 ≤ r → next_interval s r = 1) := by
  have hrange : 1 ≤ next_interval s r ∧ next_interval s r ≤ 365 := by
    unfold next_interval
    constructor
    · exact le_min (le_max_right _ _) (by norm_num [interval_cap])
    · simpa [interval_cap] using min_le_right
        (max (python_round (s / FACTOR * (r ^ ((1 : ℝ) / DECAY) - 1))) 1)
        interval_cap
  have hclamp : python_round (s / FACTOR * (r ^ ((1 : ℝ) / DECAY) - 1)) ≤ 0 →
      next_interval s r = 1 := by
    intro h
    unfold next_interval
    rw [max_eq_right (h.trans (by norm_num))]
    norm_num [interval_cap]
  refine ⟨hrange, hclamp, ?_⟩
  intro hr1
  apply hclamp
  apply python_round_nonpos
  have hle : r ^ ((1 : ℝ) / DECAY) - 1 ≤ 0 := by
    have := rpow_inv_DECAY_le_one hr1
    linarith
  exact mul_nonpos_of_nonneg_of_nonpos (div_nonneg hs.le FACTOR_pos.le) hle

theorem claim_C10_witness :
    (1 ≤ next_interval 1 1.2 ∧ next_interval 1 1.2 ≤ 365) ∧
    (python_round ((1 : ℝ) / FACTOR * ((1.2 : ℝ) ^ ((1 : ℝ) / DECAY) - 1)) ≤ 0 →
      next_interval 1 1.2 = 1) ∧
    (1 ≤ (1.2 : ℝ) → next_interval 1 1.2 = 1) :=
  claim_C10_total_clamped 1 1.2 (by norm_num) (by norm_num)

/-- C7: the review listing contains exactly the items passing the company
filter whose next_review is on or before today or which were last reviewed
today; it is ordered by category priority ordinal ascending; ties keep
insertion order (for every ordinal k, the sublist with key k equals the
filtered input sublist with key k, because Python sorted is stable); and
in particular no listed item has next_review after today unless it was
last reviewed today. -/
theorem claim_C7_due_listing (company : Option String) (today : ℤ)
    (qs : List (String × Details)) :
    (∀ q, q ∈ review_questions_listing company today qs ↔
      (q ∈ qs ∧ (∀ c, company = some c → c ∈ q.2.company_tags) ∧
        (q.2.next_review ≤ today ∨ q.2.last_reviewed = today))) ∧
    (review_questions_listing company today qs).Pairwise
      (fun a b => sortKey a ≤ sortKey b) ∧
    (∀ k : ℕ, (review_questions_listing company today qs).filter
        (fun q => sortKey q == k) =
      (qs.filter (fun q => companyOk company q.2 && isDue today q.2)).filter
        (fun q => sortKey q == k)) ∧
    (∀ q, q ∈ review_questions_listing company today qs →
      today < q.2.next_review → q.2.last_reviewed = today) := by
  have htrans : ∀ a b c : String × Details,
      decide (sortKey a ≤ sortKey b) = true →
      decide (sortKey b ≤ sortKey c) = true →
      decide (sortKey a ≤ sortKey c) = true := by
    intro a b c h1 h2
    simp only [decide_eq_true_eq] at h1 h2 ⊢
    omega
  have htotal : ∀ a b : String × Details,
      (decide (sortKey a ≤ sortKey b) || decide (sortKey b ≤ sortKey a))
        = true := by
    intro a b
    simp only [Bool.or_eq_true, decide_eq_true_eq]
    omega
  have hmem : ∀ q, q ∈ review_questions_listing company today qs ↔
      (q ∈ qs ∧ (∀ c, company = some c → c ∈ q.2.company_tags) ∧
        (q.2.next_review ≤ today ∨ q.2.last_reviewed = today)) := by
    intro q
    unfold review_questions_listing
    rw [List.mem_mergeSort, List.mem_filter]
    cases company with
    | none => simp [companyOk, isDue]
    | some c => simp [companyOk, isDue]
  refine ⟨hmem, ?_, ?_, ?_⟩
  · have hpair := List.sorted_mergeSort htrans htotal
      (qs.filter (fun q => companyOk company q.2 && isDue today q.2))
    unfold review_questions_listing
    exact hpair.imp (fun h => by simpa using h)
  · intro k
    have hpw : (List.filter (fun q => sortKey q == k)
        (qs.filter (fun q => companyOk company q.2 && isDue today q.2))).Pairwise
        (fun a b => decide (sortKey a ≤ sortKey b) = true) := by
      apply List.pairwise_of_forall_mem_list
      intro a ha b hb
      have hak : sortKey a = k := by
        simpa using (List.mem_filter.mp ha).2
      have hbk : sortKey b = k := by
        simpa using (List.mem_filter.mp hb).2
      simp [hak, hbk]
    have hsub := List.sublist_mergeSort htrans htotal hpw
      (List.filter_sublist
        (qs.filter (fun q => companyOk company q.2 && isDue today q.2)))
    have hsub2 := hsub.filter (fun q => sortKey q == k)
    rw [List.filter_eq_self.mpr
      (fun a ha => (List.mem_filter.mp ha).2)] at hsub2
    have hperm := (List.mergeSort_perm
      (qs.filter (fun q => companyOk company q.2 && isDue today q.2))
      (fun a b => decide (sortKey a ≤ sortKey b))).filter
      (fun q => sortKey q == k)
    unfold review_questions_listing
    exact (hsub2.eq_of_length hperm.length_eq.symm).symm
  · intro q hq hgt
    rcases ((hmem q).mp hq).2.2 with h | h
    · omega
    · exact h

/-- An item last reviewed on day 1 whose next review is day 2. -/
noncomputable def reviewedTodayDetails : Details :=
  { exampleDetails with last_reviewed := 1, next_review := 2 }

theorem claim_C7_witness : reviewedTodayDetails.last_reviewed = 1 :=
  (claim_C7_due_listing none 1 [("two-sum", reviewedTodayDetails)]).2.2.2
    ("two-sum", reviewedTodayDetails)
    (by simp [review_questions_listing, companyOk, isDue,
      reviewedTodayDetails])
    (by norm_num [reviewedTodayDetails, exampleDetails])

end SpacedRepetition
